import Mathlib

/-!
Verification of the PV characteristic solver of `Proyecto_Final - Prueba_5/app2.py`
(class `PVModel`: `__init__`, `validate_inputs`, `modelo_pv`).

Python floats are embedded as real numbers; the special float values `nan`,
`inf`, `-inf` and non-numeric Python objects, which matter only to the
validation layer, are embedded by the inductive type `PyNum` whose comparison
semantics mirror IEEE-754 ordered comparison (`nan <= 0` is false,
`inf <= 0` is false, `-inf <= 0` is true).

`scipy.optimize.fsolve` is an external library black box; `modelo_pv` is
parametrised by an oracle of its type (per voltage sample: the residual
function, the initial guess `I_sc`, the voltage; returning the produced
current together with the convergence flag that the source code never
inspects).  Claims about the numeric curve hold for every oracle; the
spec-modelled `exactSolver` below instantiates the oracle with the exact
root of the residual, per §4.3 of the specification.
-/

set_option maxRecDepth 8000

namespace PVWeb

/-- A Python value as seen by `validate_inputs`: an `int`, a finite `float`,
one of the non-finite floats `nan`, `inf`, `-inf`, or any non-numeric object
(string, list, `None`, ...). -/
inductive PyNum where
  | int (n : ℤ)
  | float (x : ℝ)
  | nan
  | inf
  | ninf
  | nonNumber

/-- Truth value of the Python test `isinstance(v, (int, float))`:
ints and all floats (finite or not) pass, everything else fails. -/
def PyNum.isNumber : PyNum → Bool
  | .nonNumber => false
  | _ => true

/-- Truth value of the Python test `isinstance(v, int)`. -/
def PyNum.isInt : PyNum → Bool
  | .int _ => true
  | _ => false

/-- Truth value of the Python comparison `v <= 0` under IEEE-754 ordered
comparison: `nan <= 0` and `inf <= 0` are false, `-inf <= 0` is true.
Only consulted when `isNumber v` holds, because the source's
`not isinstance(v, (int, float)) or v <= 0` short-circuits; the value on
`nonNumber` is arbitrary (the comparison would raise `TypeError`). -/
def PyNum.leZero : PyNum → Prop
  | .int n => n ≤ 0
  | .float x => x ≤ 0
  | .nan => False
  | .inf => False
  | .ninf => True
  | .nonNumber => True

/-- The real value of a finite Python number.  On the non-finite values this
returns a junk value 0: the numeric layer of `modelo_pv` is modelled only on
finite inputs (IEEE non-finite arithmetic is outside the real-number
embedding), and every claim about the numeric output assumes validated
finite positive inputs. -/
def PyNum.toReal : PyNum → ℝ
  | .int n => n
  | .float x => x
  | _ => 0

/-- The error taxonomy: the four distinct `ValueError` messages raised by
`validate_inputs` (irradiance, temperature, series count, parallel count),
plus the specification's `RootFindingFailure` (§6, §7), which the source
code never raises. -/
inductive PVError where
  | invalidIrradiance
  | invalidTemperature
  | invalidSeriesCount
  | invalidParallelCount
  | rootFindingFailure
deriving DecidableEq

/-- The spec's `InvalidOperatingCondition` class of errors (§4.1): the two
`ValueError`s about irradiance and temperature. -/
def PVError.isInvalidOperatingCondition (e : PVError) : Prop :=
  e = .invalidIrradiance ∨ e = .invalidTemperature

/-- The spec's `InvalidArrayConfig` class of errors (§4.1): the two
`ValueError`s about the panel counts. -/
def PVError.isInvalidArrayConfig (e : PVError) : Prop :=
  e = .invalidSeriesCount ∨ e = .invalidParallelCount

/-- The state of a `PVModel` object after `__init__`: the fixed physical
constants and the fields derived from the panel counts. -/
structure PVModel where
  R_sh : ℝ
  k_i : ℝ
  T_n : ℝ
  q : ℝ
  n : ℝ
  K : ℝ
  E_g0 : ℝ
  R_s : ℝ
  num_panels_series : PyNum
  num_panels_parallel : PyNum
  I_sc : ℝ
  V_oc : ℝ
  N_s : ℝ

/-- `PVModel.__init__(num_panels_series, num_panels_parallel)`. -/
def PVModel.init (num_panels_series num_panels_parallel : PyNum) : PVModel where
  R_sh := 545.82
  k_i := 0.037
  T_n := 298
  q := 1.60217646e-19
  n := 1.0
  K := 1.3806503e-23
  E_g0 := 1.1
  R_s := 0.39
  num_panels_series := num_panels_series
  num_panels_parallel := num_panels_parallel
  I_sc := 9.35 * num_panels_parallel.toReal
  V_oc := 47.4 * num_panels_series.toReal
  N_s := 72 * num_panels_series.toReal

open Classical in
/-- `PVModel.validate_inputs(G, T)`: the four `if ... raise ValueError`
checks, in source order (irradiance, temperature, series count, parallel
count); `some e` is the first raised error, `none` means no error. -/
noncomputable def PVModel.validate_inputs (m : PVModel) (G T : PyNum) :
    Option PVError :=
  if ¬(G.isNumber = true) ∨ G.leZero then some .invalidIrradiance
  else if ¬(T.isNumber = true) ∨ T.leZero then some .invalidTemperature
  else if ¬(m.num_panels_series.isInt = true) ∨ m.num_panels_series.leZero then
    some .invalidSeriesCount
  else if ¬(m.num_panels_parallel.isInt = true) ∨ m.num_panels_parallel.leZero then
    some .invalidParallelCount
  else none

/-- `I_rs = self.I_sc / (np.exp((self.q * self.V_oc) / (self.n * self.N_s * self.K * T)) - 1)`. -/
noncomputable def PVModel.I_rs (m : PVModel) (T : ℝ) : ℝ :=
  m.I_sc / (Real.exp ((m.q * m.V_oc) / (m.n * m.N_s * m.K * T)) - 1)

/-- `I_o = I_rs * (T / self.T_n) * np.exp((self.q * self.E_g0 * (1 / self.T_n - 1 / T)) / (self.n * self.K))`. -/
noncomputable def PVModel.I_o (m : PVModel) (T : ℝ) : ℝ :=
  m.I_rs T * (T / m.T_n) *
    Real.exp ((m.q * m.E_g0 * (1 / m.T_n - 1 / T)) / (m.n * m.K))

/-- `I_ph = (self.I_sc + self.k_i * (T - 298)) * (G / 1000)`. -/
noncomputable def PVModel.I_ph (m : PVModel) (G T : ℝ) : ℝ :=
  (m.I_sc + m.k_i * (T - 298)) * (G / 1000)

/-- The residual of the single-diode circuit equation, the inner function
`f(I, V)` of `modelo_pv`, with the captured values `I_ph`, `I_o`, `T`
passed explicitly. -/
noncomputable def PVModel.circuit (m : PVModel) (Iph Io T : ℝ) (I V : ℝ) : ℝ :=
  Iph - Io * (Real.exp ((m.q * (V + I * m.R_s)) / (m.n * m.K * m.N_s * T)) - 1) -
    (V + I * m.R_s) / m.R_sh - I

/-- The circuit residual with the exponent coefficient factored out:
`diodeF Iph Io a Rs Rsh I V = Iph − Io·(exp(a·(V + I·Rs)) − 1) − (V + I·Rs)/Rsh − I`,
where `a = q/(n·K·N_s·T)`; equal to `PVModel.circuit` by
`circuit_eq_diodeF` and used for the root analysis behind claim C8. -/
noncomputable def diodeF (Iph Io a Rs Rsh : ℝ) (I V : ℝ) : ℝ :=
  Iph - Io * (Real.exp (a * (V + I * Rs)) - 1) - (V + I * Rs) / Rsh - I

/-- `np.linspace(a, b, num)[i]` in real arithmetic: `num` evenly spaced
samples from `a` to `b` including both endpoints, step `(b - a)/(num - 1)`. -/
noncomputable def linspace (a b : ℝ) (num : ℕ) (i : ℕ) : ℝ :=
  a + (b - a) * i / ((num : ℝ) - 1)

/-- The type of the `scipy.optimize.fsolve` oracle, restricted to one voltage
sample: given the residual function, the initial guess and the voltage, it
returns the produced current together with its convergence flag.  The source
calls `fsolve` without `full_output`, so the flag is never inspected. -/
def FsolveOracle : Type :=
  (ℝ → ℝ → ℝ) → ℝ → ℝ → ℝ × Bool

/-- The tuple `(resultados, Vmpp, Impp, P_max)` returned by `modelo_pv`;
`resultados` holds the DataFrame rows `(Corriente, Voltaje, Potencia)`. -/
structure SolveResult where
  resultados : List (ℝ × ℝ × ℝ)
  Vmpp : ℝ
  Impp : ℝ
  P_max : ℝ

open Classical in
/-- `pandas.Series.idxmax` on a column with positional index: the index of
the first occurrence of the maximum value (0 on an empty column).  The
lemmas `idxmax_lt_length`, `getD_le_getD_idxmax` and `getD_lt_of_lt_idxmax`
below establish exactly this documented behaviour of the pandas library
call. -/
noncomputable def idxmax : List ℝ → ℕ
  | [] => 0
  | a :: t => if t.getD (idxmax t) 0 > a ∧ t ≠ [] then idxmax t + 1 else 0

/-- The voltage sweep of `modelo_pv`: `Vpv = np.linspace(0, self.V_oc, 1000)`. -/
noncomputable def Vpv (m : PVModel) (i : ℕ) : ℝ :=
  linspace 0 m.V_oc 1000 i

/-- The current array of `modelo_pv`:
`Ipv = fsolve(f, self.I_sc * np.ones_like(Vpv), args=(Vpv))`, per sample
seeded with `I_sc`; the source drops the convergence information (`.1`). -/
noncomputable def Ipv (fsolve : FsolveOracle) (m : PVModel) (G T : ℝ)
    (i : ℕ) : ℝ :=
  (fsolve (m.circuit (m.I_ph G T) (m.I_o T) T) m.I_sc (Vpv m i)).1

/-- The power array of `modelo_pv`: `Ppv = Vpv * Ipv`, elementwise. -/
noncomputable def Ppv (fsolve : FsolveOracle) (m : PVModel) (G T : ℝ)
    (i : ℕ) : ℝ :=
  Vpv m i * Ipv fsolve m G T i

/-- The DataFrame `resultados` of `modelo_pv`: 1000 rows
`(Corriente, Voltaje, Potencia) = (Ipv[i], Vpv[i], Ppv[i])`. -/
noncomputable def curveRows (fsolve : FsolveOracle) (m : PVModel)
    (G T : ℝ) : List (ℝ × ℝ × ℝ) :=
  List.ofFn (fun i : Fin 1000 => (Ipv fsolve m G T i, Vpv m i, Ppv fsolve m G T i))

/-- `max_power_idx = resultados['Potencia (W)'].idxmax()`. -/
noncomputable def max_power_idx (fsolve : FsolveOracle) (m : PVModel)
    (G T : ℝ) : ℕ :=
  idxmax ((curveRows fsolve m G T).map (fun r => r.2.2))

/-- The numeric body of `modelo_pv` after validation: the DataFrame of rows
`(Ipv, Vpv, Ppv)` and the `.loc[max_power_idx]` lookups of
`Vmpp`, `Impp`, `P_max`. -/
noncomputable def computeCurve (fsolve : FsolveOracle) (m : PVModel)
    (G T : ℝ) : SolveResult :=
  let resultados := curveRows fsolve m G T
  let idx := max_power_idx fsolve m G T
  { resultados := resultados
    Vmpp := (resultados.getD idx (0, 0, 0)).2.1
    Impp := (resultados.getD idx (0, 0, 0)).1
    P_max := (resultados.getD idx (0, 0, 0)).2.2 }

/-- `PVModel.modelo_pv(G, T)`: validate first (line 54 of the source), then
run the numeric body; a validation error aborts the call before any numeric
work. -/
noncomputable def PVModel.modelo_pv (m : PVModel) (fsolve : FsolveOracle)
    (G T : PyNum) : Except PVError SolveResult :=
  match m.validate_inputs G T with
  | some e => .error e
  | none => .ok (computeCurve fsolve m G.toReal T.toReal)

/-- The spec's single external operation (§6):
`solve(seriesCount, parallelCount, irradiance, temperature)`. -/
noncomputable def solve (fsolve : FsolveOracle)
    (seriesCount parallelCount G T : PyNum) : Except PVError SolveResult :=
  (PVModel.init seriesCount parallelCount).modelo_pv fsolve G T

open Classical in
/-- Modelled from the spec: `scipy.optimize.fsolve` is external library code
absent from the repository; per §4.3 the solver applied to the residual
converges to its root.  This oracle returns a root of the residual whenever
one exists (together with convergence flag `true`), and the unchanged
initial guess flagged `false` otherwise. -/
noncomputable def exactSolver : FsolveOracle := fun f guess V =>
  if h : ∃ I, f I V = 0 then (h.choose, true) else (guess, false)

/-- The specification's formula (§4.2):
`I_rs = I_sc / (exp(q·V_oc / (n·N_s·K·T)) − 1)`. -/
noncomputable def specIrs (Isc Voc Ns q n K T : ℝ) : ℝ :=
  Isc / (Real.exp (q * Voc / (n * Ns * K * T)) - 1)

/-- The specification's formula (§4.2):
`I_o = I_rs · (T/T_ref) · exp((q·E_g0·(1/T_ref − 1/T)) / (n·K))`. -/
noncomputable def specIo (Irs T Tref q Eg0 n K : ℝ) : ℝ :=
  Irs * (T / Tref) * Real.exp (q * Eg0 * (1 / Tref - 1 / T) / (n * K))

/-- The specification's formula (§4.2):
`I_ph = (I_sc + k_i·(T − T_ref)) · (G / 1000)`. -/
noncomputable def specIph (Isc ki T Tref G : ℝ) : ℝ :=
  (Isc + ki * (T - Tref)) * (G / 1000)

/-- The fixed reference temperature of the spec, 298 K. -/
def Tref : ℝ := 298

/-- The spec's validity predicate for an operating-condition parameter
(§4.1): a finite, real, strictly positive number. -/
def finiteRealPositive : PyNum → Prop
  | .int n => 0 < n
  | .float x => 0 < x
  | _ => False

/-! ### Helper lemmas about `idxmax` and list access -/

theorem getD_ofFn {α : Type} {n : ℕ} (f : Fin n → α) (d : α) (i : ℕ) (h : i < n) :
    (List.ofFn f).getD i d = f ⟨i, h⟩ := by
  have hlen : i < (List.ofFn f).length := by simpa using h
  rw [List.getD_eq_getElem _ _ hlen, List.getElem_ofFn]

theorem idxmax_lt_length (l : List ℝ) (h : l ≠ []) : idxmax l < l.length := by
  induction l with
  | nil => exact absurd rfl h
  | cons a t ih =>
    rw [idxmax]
    split
    · rename_i hcond
      have := ih hcond.2
      simpa using Nat.succ_lt_succ this
    · simp

theorem getD_le_getD_idxmax (l : List ℝ) (i : ℕ) (hi : i < l.length) :
    l.getD i 0 ≤ l.getD (idxmax l) 0 := by
  induction l generalizing i with
  | nil => simp at hi
  | cons a t ih =>
    rw [idxmax]
    split
    · rename_i hcond
      cases i with
      | zero => simpa using le_of_lt hcond.1
      | succ k =>
        have hk : k < t.length := by simpa using hi
        simpa using ih k hk
    · rename_i hcond
      cases i with
      | zero => simp
      | succ k =>
        have hk : k < t.length := by simpa using hi
        have hne : t ≠ [] := List.ne_nil_of_length_pos (lt_of_le_of_lt (Nat.zero_le k) hk)
        have hle : t.getD (idxmax t) 0 ≤ a := by
          by_contra hgt
          push_neg at hgt
          exact hcond ⟨hgt, hne⟩
        have := le_trans (ih k hk) hle
        simpa using this

theorem getD_lt_of_lt_idxmax (l : List ℝ) (i : ℕ) (hi : i < idxmax l) :
    l.getD i 0 < l.getD (idxmax l) 0 := by
  induction l generalizing i with
  | nil => simp [idxmax] at hi
  | cons a t ih =>
    by_cases hcond : t.getD (idxmax t) 0 > a ∧ t ≠ []
    · rw [idxmax, if_pos hcond] at hi ⊢
      cases i with
      | zero => simpa using hcond.1
      | succ k =>
        have hk : k < idxmax t := Nat.lt_of_succ_lt_succ hi
        simpa using ih k hk
    · rw [idxmax, if_neg hcond] at hi
      exact absurd hi (Nat.not_lt_zero i)

attribute [irreducible] idxmax

/-! ### Validation on valid inputs -/

theorem validate_inputs_eq_none (s p : ℤ) (G T : ℝ)
    (hs : 0 < s) (hp : 0 < p) (hG : 0 < G) (hT : 0 < T) :
    (PVModel.init (.int s) (.int p)).validate_inputs (.float G) (.float T) = none := by
  unfold PVModel.validate_inputs
  rw [if_neg, if_neg, if_neg, if_neg]
  · simp only [PVModel.init, PyNum.isInt, PyNum.leZero]
    push_neg
    exact ⟨trivial, hp⟩
  · simp only [PVModel.init, PyNum.isInt, PyNum.leZero]
    push_neg
    exact ⟨trivial, hs⟩
  · simp only [PyNum.isNumber, PyNum.leZero]
    push_neg
    exact ⟨trivial, hT⟩
  · simp only [PyNum.isNumber, PyNum.leZero]
    push_neg
    exact ⟨trivial, hG⟩

theorem modelo_pv_ok (fsolve : FsolveOracle) (s p : ℤ) (G T : ℝ)
    (hs : 0 < s) (hp : 0 < p) (hG : 0 < G) (hT : 0 < T) :
    (PVModel.init (.int s) (.int p)).modelo_pv fsolve (.float G) (.float T)
      = .ok (computeCurve fsolve (PVModel.init (.int s) (.int p)) G T) := by
  unfold PVModel.modelo_pv
  rw [validate_inputs_eq_none s p G T hs hp hG hT]
  rfl

/-! ### Access lemmas for the assembled curve -/

theorem curveRows_length (fsolve : FsolveOracle) (m : PVModel) (G T : ℝ) :
    (curveRows fsolve m G T).length = 1000 := by
  unfold curveRows
  exact List.length_ofFn _

theorem curveRows_getD (fsolve : FsolveOracle) (m : PVModel) (G T : ℝ)
    (i : ℕ) (h : i < 1000) :
    (curveRows fsolve m G T).getD i (0, 0, 0)
      = (Ipv fsolve m G T i, Vpv m i, Ppv fsolve m G T i) :=
  getD_ofFn _ _ i h

theorem powerColumn_eq (fsolve : FsolveOracle) (m : PVModel) (G T : ℝ) :
    (curveRows fsolve m G T).map (fun r => r.2.2)
      = List.ofFn (fun i : Fin 1000 => Ppv fsolve m G T i) := by
  unfold curveRows
  rw [List.map_ofFn]
  rfl

theorem max_power_idx_lt (fsolve : FsolveOracle) (m : PVModel) (G T : ℝ) :
    max_power_idx fsolve m G T < 1000 := by
  have hlen : ((curveRows fsolve m G T).map (fun r => r.2.2)).length = 1000 := by
    rw [List.length_map, curveRows_length]
  have hne : ((curveRows fsolve m G T).map (fun r => r.2.2)) ≠ [] := by
    intro hemp
    rw [hemp] at hlen
    exact absurd hlen (by norm_num)
  have h := idxmax_lt_length _ hne
  rw [hlen] at h
  exact h

theorem powerColumn_getD (fsolve : FsolveOracle) (m : PVModel) (G T : ℝ)
    (i : ℕ) (h : i < 1000) :
    ((curveRows fsolve m G T).map (fun r => r.2.2)).getD i 0
      = Ppv fsolve m G T i := by
  rw [powerColumn_eq]
  exact getD_ofFn _ _ i h

attribute [irreducible] curveRows

theorem computeCurve_eq (fsolve : FsolveOracle) (m : PVModel) (G T : ℝ) :
    computeCurve fsolve m G T
      = ⟨curveRows fsolve m G T,
         ((curveRows fsolve m G T).getD (max_power_idx fsolve m G T) (0, 0, 0)).2.1,
         ((curveRows fsolve m G T).getD (max_power_idx fsolve m G T) (0, 0, 0)).1,
         ((curveRows fsolve m G T).getD (max_power_idx fsolve m G T) (0, 0, 0)).2.2⟩ :=
  rfl

theorem computeCurve_resultados (fsolve : FsolveOracle) (m : PVModel) (G T : ℝ) :
    (computeCurve fsolve m G T).resultados = curveRows fsolve m G T := by
  rw [computeCurve_eq]

theorem computeCurve_P_max (fsolve : FsolveOracle) (m : PVModel) (G T : ℝ) :
    (computeCurve fsolve m G T).P_max
      = Ppv fsolve m G T (max_power_idx fsolve m G T) := by
  rw [computeCurve_eq]
  rw [curveRows_getD _ _ _ _ _ (max_power_idx_lt fsolve m G T)]

theorem computeCurve_Vmpp (fsolve : FsolveOracle) (m : PVModel) (G T : ℝ) :
    (computeCurve fsolve m G T).Vmpp
      = Vpv m (max_power_idx fsolve m G T) := by
  rw [computeCurve_eq]
  rw [curveRows_getD _ _ _ _ _ (max_power_idx_lt fsolve m G T)]

theorem computeCurve_Impp (fsolve : FsolveOracle) (m : PVModel) (G T : ℝ) :
    (computeCurve fsolve m G T).Impp
      = Ipv fsolve m G T (max_power_idx fsolve m G T) := by
  rw [computeCurve_eq]
  rw [curveRows_getD _ _ _ _ _ (max_power_idx_lt fsolve m G T)]

theorem Ppv_le_Ppv_idx (fsolve : FsolveOracle) (m : PVModel) (G T : ℝ)
    (j : ℕ) (hj : j < 1000) :
    Ppv fsolve m G T j ≤ Ppv fsolve m G T (max_power_idx fsolve m G T) := by
  have hlen : j < ((curveRows fsolve m G T).map (fun r => r.2.2)).length := by
    rw [List.length_map, curveRows_length]
    exact hj
  have h := getD_le_getD_idxmax ((curveRows fsolve m G T).map (fun r => r.2.2)) j hlen
  have hidx : max_power_idx fsolve m G T
      = idxmax ((curveRows fsolve m G T).map (fun r => r.2.2)) := rfl
  rw [← hidx] at h
  rwa [powerColumn_getD _ _ _ _ j hj,
    powerColumn_getD _ _ _ _ _ (max_power_idx_lt fsolve m G T)] at h

theorem Ppv_lt_Ppv_idx_of_lt (fsolve : FsolveOracle) (m : PVModel) (G T : ℝ)
    (j : ℕ) (hj : j < max_power_idx fsolve m G T) :
    Ppv fsolve m G T j < Ppv fsolve m G T (max_power_idx fsolve m G T) := by
  have hj1000 : j < 1000 := lt_trans hj (max_power_idx_lt fsolve m G T)
  have hidx : max_power_idx fsolve m G T
      = idxmax ((curveRows fsolve m G T).map (fun r => r.2.2)) := rfl
  rw [hidx] at hj
  have h := getD_lt_of_lt_idxmax ((curveRows fsolve m G T).map (fun r => r.2.2)) j hj
  rw [← hidx] at h
  rwa [powerColumn_getD _ _ _ _ j hj1000,
    powerColumn_getD _ _ _ _ _ (max_power_idx_lt fsolve m G T)] at h

/-! ### Case analysis of `validate_inputs` -/

theorem validate_irr (m : PVModel) (G T : PyNum)
    (h : ¬(G.isNumber = true) ∨ G.leZero) :
    m.validate_inputs G T = some .invalidIrradiance := by
  unfold PVModel.validate_inputs
  rw [if_pos h]

theorem validate_temp (m : PVModel) (G T : PyNum)
    (hG : G.isNumber = true ∧ ¬G.leZero)
    (h : ¬(T.isNumber = true) ∨ T.leZero) :
    m.validate_inputs G T = some .invalidTemperature := by
  unfold PVModel.validate_inputs
  rw [if_neg (by push_neg; exact hG), if_pos h]

theorem validate_series (m : PVModel) (G T : PyNum)
    (hG : G.isNumber = true ∧ ¬G.leZero)
    (hT : T.isNumber = true ∧ ¬T.leZero)
    (h : ¬(m.num_panels_series.isInt = true) ∨ m.num_panels_series.leZero) :
    m.validate_inputs G T = some .invalidSeriesCount := by
  unfold PVModel.validate_inputs
  rw [if_neg (by push_neg; exact hG), if_neg (by push_neg; exact hT), if_pos h]

theorem validate_par (m : PVModel) (G T : PyNum)
    (hG : G.isNumber = true ∧ ¬G.leZero)
    (hT : T.isNumber = true ∧ ¬T.leZero)
    (hS : m.num_panels_series.isInt = true ∧ ¬m.num_panels_series.leZero)
    (h : ¬(m.num_panels_parallel.isInt = true) ∨ m.num_panels_parallel.leZero) :
    m.validate_inputs G T = some .invalidParallelCount := by
  unfold PVModel.validate_inputs
  rw [if_neg (by push_neg; exact hG), if_neg (by push_neg; exact hT),
    if_neg (by push_neg; exact hS), if_pos h]

theorem validate_ok (m : PVModel) (G T : PyNum)
    (hG : G.isNumber = true ∧ ¬G.leZero)
    (hT : T.isNumber = true ∧ ¬T.leZero)
    (hS : m.num_panels_series.isInt = true ∧ ¬m.num_panels_series.leZero)
    (hP : m.num_panels_parallel.isInt = true ∧ ¬m.num_panels_parallel.leZero) :
    m.validate_inputs G T = none := by
  unfold PVModel.validate_inputs
  rw [if_neg (by push_neg; exact hG), if_neg (by push_neg; exact hT),
    if_neg (by push_neg; exact hS), if_neg (by push_neg; exact hP)]

theorem modelo_pv_error (m : PVModel) (fsolve : FsolveOracle) (G T : PyNum)
    (e : PVError) (he : m.validate_inputs G T = some e) :
    m.modelo_pv fsolve G T = .error e := by
  unfold PVModel.modelo_pv
  rw [he]

theorem validate_ne_rootFailure (m : PVModel) (G T : PyNum) :
    m.validate_inputs G T ≠ some .rootFindingFailure := by
  unfold PVModel.validate_inputs
  split
  · simp
  split
  · simp
  split
  · simp
  split
  · simp
  · simp

/-! ### Analysis of the diode residual (for claim C8) -/

theorem circuit_eq_diodeF (m : PVModel) (Iph Io T I V : ℝ) :
    m.circuit Iph Io T I V
      = diodeF Iph Io (m.q / (m.n * m.K * m.N_s * T)) m.R_s m.R_sh I V := by
  unfold PVModel.circuit diodeF
  have harg : (m.q * (V + I * m.R_s)) / (m.n * m.K * m.N_s * T)
      = m.q / (m.n * m.K * m.N_s * T) * (V + I * m.R_s) := by
    ring
  rw [harg]

theorem diodeF_strictAnti (Iph Io a Rs Rsh V : ℝ) (hIo : 0 < Io) (ha : 0 < a)
    (hRs : 0 < Rs) (hRsh : 0 < Rsh) (I1 I2 : ℝ) (h12 : I1 < I2) :
    diodeF Iph Io a Rs Rsh I2 V < diodeF Iph Io a Rs Rsh I1 V := by
  unfold diodeF
  have hexp : Real.exp (a * (V + I1 * Rs)) < Real.exp (a * (V + I2 * Rs)) := by
    apply Real.exp_lt_exp.mpr
    have hmul : I1 * Rs < I2 * Rs := mul_lt_mul_of_pos_right h12 hRs
    nlinarith
  have h1 : Io * (Real.exp (a * (V + I1 * Rs)) - 1)
      < Io * (Real.exp (a * (V + I2 * Rs)) - 1) := by nlinarith
  have h2 : (V + I1 * Rs) / Rsh < (V + I2 * Rs) / Rsh := by
    apply (div_lt_div_iff_of_pos_right hRsh).mpr
    nlinarith
  linarith

theorem diodeF_continuous (Iph Io a Rs Rsh V : ℝ) :
    Continuous (fun I => diodeF Iph Io a Rs Rsh I V) := by
  unfold diodeF
  continuity

theorem diodeF_exists_root (Iph Io a Rs Rsh V : ℝ) (hIo : 0 < Io) (ha : 0 < a)
    (hRs : 0 < Rs) (hRsh : 0 < Rsh) :
    ∃ I, diodeF Iph Io a Rs Rsh I V = 0 := by
  have hRsh' : Rsh ≠ 0 := ne_of_gt hRsh
  have hRs' : Rs ≠ 0 := ne_of_gt hRs
  set I1 := min (-(V / Rs)) ((Iph - V / Rsh) / (1 + Rs / Rsh)) with hI1def
  set I2 := max I1 ((Iph - (Io * a + 1 / Rsh) * V) / (Io * a * Rs + Rs / Rsh + 1))
    with hI2def
  have hle : I1 ≤ I2 := le_max_left _ _
  have hf1 : 0 ≤ diodeF Iph Io a Rs Rsh I1 V := by
    have hVI : V + I1 * Rs ≤ 0 := by
      have h1 : I1 ≤ -(V / Rs) := min_le_left _ _
      have h2 : I1 * Rs ≤ -(V / Rs) * Rs := mul_le_mul_of_nonneg_right h1 (le_of_lt hRs)
      have h3 : -(V / Rs) * Rs = -V := by field_simp
      nlinarith
    have hexp : Real.exp (a * (V + I1 * Rs)) ≤ 1 := by
      have harg : a * (V + I1 * Rs) ≤ 0 := by nlinarith
      calc Real.exp (a * (V + I1 * Rs)) ≤ Real.exp 0 := Real.exp_le_exp.mpr harg
        _ = 1 := Real.exp_zero
    have hlin : 0 ≤ Iph - (V + I1 * Rs) / Rsh - I1 := by
      have h1 : I1 ≤ (Iph - V / Rsh) / (1 + Rs / Rsh) := min_le_right _ _
      have hpos : (0 : ℝ) < 1 + Rs / Rsh := by positivity
      rw [le_div_iff₀ hpos, mul_add, mul_one] at h1
      have expand : (V + I1 * Rs) / Rsh = V / Rsh + I1 * (Rs / Rsh) := by
        field_simp
      rw [expand]
      linarith
    have hterm : Io * (Real.exp (a * (V + I1 * Rs)) - 1) ≤ 0 := by nlinarith
    unfold diodeF
    linarith
  have hf2 : diodeF Iph Io a Rs Rsh I2 V ≤ 0 := by
    have hexp : 1 + a * (V + I2 * Rs) ≤ Real.exp (a * (V + I2 * Rs)) := by
      have := Real.add_one_le_exp (a * (V + I2 * Rs))
      linarith
    have hk : (0 : ℝ) < Io * a * Rs + Rs / Rsh + 1 := by positivity
    have h1 : (Iph - (Io * a + 1 / Rsh) * V) / (Io * a * Rs + Rs / Rsh + 1) ≤ I2 :=
      le_max_right _ _
    rw [div_le_iff₀ hk] at h1
    have hx : a * (V + I2 * Rs) ≤ Real.exp (a * (V + I2 * Rs)) - 1 := by linarith
    have hm : Io * (a * (V + I2 * Rs)) ≤ Io * (Real.exp (a * (V + I2 * Rs)) - 1) :=
      mul_le_mul_of_nonneg_left hx (le_of_lt hIo)
    have hchain : diodeF Iph Io a Rs Rsh I2 V
        ≤ Iph - Io * (a * (V + I2 * Rs)) - (V + I2 * Rs) / Rsh - I2 := by
      unfold diodeF
      linarith
    have heq : Iph - Io * (a * (V + I2 * Rs)) - (V + I2 * Rs) / Rsh - I2
        = Iph - (Io * a + 1 / Rsh) * V - I2 * (Io * a * Rs + Rs / Rsh + 1) := by
      field_simp
      ring
    rw [heq] at hchain
    linarith
  have hcont : ContinuousOn (fun I => diodeF Iph Io a Rs Rsh I V) (Set.Icc I1 I2) :=
    (diodeF_continuous Iph Io a Rs Rsh V).continuousOn
  have hsub := intermediate_value_Icc' hle hcont
  have h0 : (0 : ℝ) ∈ Set.Icc (diodeF Iph Io a Rs Rsh I2 V)
      (diodeF Iph Io a Rs Rsh I1 V) := ⟨hf2, hf1⟩
  obtain ⟨I, _, hI⟩ := hsub h0
  exact ⟨I, hI⟩

theorem diodeF_root_mono (Iph Iph2 Io a Rs Rsh V I J : ℝ) (hIo : 0 < Io)
    (ha : 0 < a) (hRs : 0 < Rs) (hRsh : 0 < Rsh) (hle : Iph ≤ Iph2)
    (hI : diodeF Iph Io a Rs Rsh I V = 0) (hJ : diodeF Iph2 Io a Rs Rsh J V = 0) :
    I ≤ J := by
  by_contra hlt
  push_neg at hlt
  have h1 : diodeF Iph2 Io a Rs Rsh I V < diodeF Iph2 Io a Rs Rsh J V :=
    diodeF_strictAnti Iph2 Io a Rs Rsh V hIo ha hRs hRsh J I hlt
  have h2 : diodeF Iph2 Io a Rs Rsh I V = diodeF Iph Io a Rs Rsh I V + (Iph2 - Iph) := by
    unfold diodeF
    ring
  rw [hJ, h2, hI] at h1
  linarith

theorem diodeF_root_nonpos (Iph Io a Rs Rsh V I : ℝ) (hIo : 0 < Io) (ha : 0 < a)
    (hRs : 0 < Rs) (hRsh : 0 < Rsh) (hIph : Iph ≤ 0) (hV : 0 ≤ V)
    (hI : diodeF Iph Io a Rs Rsh I V = 0) :
    I ≤ 0 := by
  by_contra h
  push_neg at h
  have h1 : diodeF Iph Io a Rs Rsh I V < diodeF Iph Io a Rs Rsh 0 V :=
    diodeF_strictAnti Iph Io a Rs Rsh V hIo ha hRs hRsh 0 I h
  rw [hI] at h1
  have h2 : diodeF Iph Io a Rs Rsh 0 V ≤ 0 := by
    unfold diodeF
    have hexp : 1 ≤ Real.exp (a * (V + 0 * Rs)) := by
      have harg : 0 ≤ a * (V + 0 * Rs) := by nlinarith
      calc (1 : ℝ) = Real.exp 0 := Real.exp_zero.symm
        _ ≤ Real.exp (a * (V + 0 * Rs)) := Real.exp_le_exp.mpr harg
    have hterm : 0 ≤ Io * (Real.exp (a * (V + 0 * Rs)) - 1) := by nlinarith
    have hdiv : 0 ≤ (V + 0 * Rs) / Rsh := by positivity
    linarith
  linarith

theorem exactSolver_root (f : ℝ → ℝ → ℝ) (guess V : ℝ) (hex : ∃ I, f I V = 0) :
    f (exactSolver f guess V).1 V = 0 := by
  unfold exactSolver
  rw [dif_pos hex]
  exact hex.choose_spec

/-! ### Positivity of the model constants and exact-solver roots -/

theorem init_Rs_pos (sp pp : PyNum) : (0 : ℝ) < (PVModel.init sp pp).R_s := by
  show (0 : ℝ) < 0.39
  norm_num

theorem init_Rsh_pos (sp pp : PyNum) : (0 : ℝ) < (PVModel.init sp pp).R_sh := by
  show (0 : ℝ) < 545.82
  norm_num

theorem init_Isc_pos (s p : ℤ) (hp : 0 < p) :
    0 < (PVModel.init (.int s) (.int p)).I_sc := by
  have h : (PVModel.init (.int s) (.int p)).I_sc = 9.35 * (p : ℝ) := rfl
  have hp' : (0 : ℝ) < (p : ℝ) := by exact_mod_cast hp
  rw [h]
  positivity

theorem init_Voc_pos (s p : ℤ) (hs : 0 < s) :
    0 < (PVModel.init (.int s) (.int p)).V_oc := by
  have h : (PVModel.init (.int s) (.int p)).V_oc = 47.4 * (s : ℝ) := rfl
  have hs' : (0 : ℝ) < (s : ℝ) := by exact_mod_cast hs
  rw [h]
  positivity

theorem init_a_pos (s p : ℤ) (T : ℝ) (hs : 0 < s) (hT : 0 < T) :
    0 < (PVModel.init (.int s) (.int p)).q /
      ((PVModel.init (.int s) (.int p)).n * (PVModel.init (.int s) (.int p)).K *
        (PVModel.init (.int s) (.int p)).N_s * T) := by
  have hq : (PVModel.init (.int s) (.int p)).q = 1.60217646e-19 := rfl
  have hn : (PVModel.init (.int s) (.int p)).n = 1.0 := rfl
  have hK : (PVModel.init (.int s) (.int p)).K = 1.3806503e-23 := rfl
  have hN : (PVModel.init (.int s) (.int p)).N_s = 72 * (s : ℝ) := rfl
  have hs' : (0 : ℝ) < (s : ℝ) := by exact_mod_cast hs
  rw [hq, hn, hK, hN]
  positivity

theorem I_o_pos (s p : ℤ) (T : ℝ) (hs : 0 < s) (hp : 0 < p) (hT : 0 < T) :
    0 < (PVModel.init (.int s) (.int p)).I_o T := by
  unfold PVModel.I_o PVModel.I_rs
  have hq : (PVModel.init (.int s) (.int p)).q = 1.60217646e-19 := rfl
  have hn : (PVModel.init (.int s) (.int p)).n = 1.0 := rfl
  have hK : (PVModel.init (.int s) (.int p)).K = 1.3806503e-23 := rfl
  have hN : (PVModel.init (.int s) (.int p)).N_s = 72 * (s : ℝ) := rfl
  have hTn : (PVModel.init (.int s) (.int p)).T_n = 298 := rfl
  have hs' : (0 : ℝ) < (s : ℝ) := by exact_mod_cast hs
  have harg : 0 < ((PVModel.init (.int s) (.int p)).q *
      (PVModel.init (.int s) (.int p)).V_oc) /
      ((PVModel.init (.int s) (.int p)).n * (PVModel.init (.int s) (.int p)).N_s *
        (PVModel.init (.int s) (.int p)).K * T) := by
    have hV := init_Voc_pos s p hs
    rw [hq, hn, hK, hN]
    rw [show (PVModel.init (.int s) (.int p)).V_oc = 47.4 * (s : ℝ) from rfl]
    positivity
  have hexp : 1 < Real.exp (((PVModel.init (.int s) (.int p)).q *
      (PVModel.init (.int s) (.int p)).V_oc) /
      ((PVModel.init (.int s) (.int p)).n * (PVModel.init (.int s) (.int p)).N_s *
        (PVModel.init (.int s) (.int p)).K * T)) := by
    calc (1 : ℝ) = Real.exp 0 := Real.exp_zero.symm
      _ < Real.exp _ := Real.exp_lt_exp.mpr harg
  have hIrs : 0 < (PVModel.init (.int s) (.int p)).I_sc /
      (Real.exp (((PVModel.init (.int s) (.int p)).q *
        (PVModel.init (.int s) (.int p)).V_oc) /
        ((PVModel.init (.int s) (.int p)).n * (PVModel.init (.int s) (.int p)).N_s *
          (PVModel.init (.int s) (.int p)).K * T)) - 1) :=
    div_pos (init_Isc_pos s p hp) (by linarith)
  have hTdiv : 0 < T / (PVModel.init (.int s) (.int p)).T_n := by
    rw [hTn]
    positivity
  exact mul_pos (mul_pos hIrs hTdiv) (Real.exp_pos _)

theorem circuit_root_exists (s p : ℤ) (T Iph : ℝ)
    (hs : 0 < s) (hp : 0 < p) (hT : 0 < T) (V : ℝ) :
    ∃ I, (PVModel.init (.int s) (.int p)).circuit Iph
      ((PVModel.init (.int s) (.int p)).I_o T) T I V = 0 := by
  obtain ⟨I, hI⟩ := diodeF_exists_root Iph ((PVModel.init (.int s) (.int p)).I_o T)
    ((PVModel.init (.int s) (.int p)).q /
      ((PVModel.init (.int s) (.int p)).n * (PVModel.init (.int s) (.int p)).K *
        (PVModel.init (.int s) (.int p)).N_s * T))
    (PVModel.init (.int s) (.int p)).R_s (PVModel.init (.int s) (.int p)).R_sh V
    (I_o_pos s p T hs hp hT) (init_a_pos s p T hs hT)
    (init_Rs_pos _ _) (init_Rsh_pos _ _)
  refine ⟨I, ?_⟩
  rw [circuit_eq_diodeF]
  exact hI

theorem Ipv_exact_root (s p : ℤ) (G T : ℝ)
    (hs : 0 < s) (hp : 0 < p) (hT : 0 < T) (i : ℕ) :
    diodeF ((PVModel.init (.int s) (.int p)).I_ph G T)
      ((PVModel.init (.int s) (.int p)).I_o T)
      ((PVModel.init (.int s) (.int p)).q /
        ((PVModel.init (.int s) (.int p)).n * (PVModel.init (.int s) (.int p)).K *
          (PVModel.init (.int s) (.int p)).N_s * T))
      (PVModel.init (.int s) (.int p)).R_s (PVModel.init (.int s) (.int p)).R_sh
      (Ipv exactSolver (PVModel.init (.int s) (.int p)) G T i)
      (Vpv (PVModel.init (.int s) (.int p)) i) = 0 := by
  have hex := circuit_root_exists s p T ((PVModel.init (.int s) (.int p)).I_ph G T)
    hs hp hT (Vpv (PVModel.init (.int s) (.int p)) i)
  have hroot := exactSolver_root
    ((PVModel.init (.int s) (.int p)).circuit
      ((PVModel.init (.int s) (.int p)).I_ph G T)
      ((PVModel.init (.int s) (.int p)).I_o T) T)
    (PVModel.init (.int s) (.int p)).I_sc
    (Vpv (PVModel.init (.int s) (.int p)) i) hex
  have hIpv : Ipv exactSolver (PVModel.init (.int s) (.int p)) G T i
      = (exactSolver ((PVModel.init (.int s) (.int p)).circuit
          ((PVModel.init (.int s) (.int p)).I_ph G T)
          ((PVModel.init (.int s) (.int p)).I_o T) T)
        (PVModel.init (.int s) (.int p)).I_sc
        (Vpv (PVModel.init (.int s) (.int p)) i)).1 := rfl
  rw [hIpv, ← circuit_eq_diodeF]
  exact hroot

theorem Vpv_nonneg (s p : ℤ) (hs : 0 < s) (i : ℕ) :
    0 ≤ Vpv (PVModel.init (.int s) (.int p)) i := by
  unfold Vpv linspace
  rw [show (PVModel.init (.int s) (.int p)).V_oc = 47.4 * (s : ℝ) from rfl]
  have hs' : (0 : ℝ) < (s : ℝ) := by exact_mod_cast hs
  have h999 : ((1000 : ℕ) : ℝ) - 1 = 999 := by norm_num
  rw [h999]
  have hform : (0 : ℝ) + (47.4 * (s : ℝ) - 0) * (i : ℝ) / 999
      = 47.4 * (s : ℝ) * (i : ℝ) / 999 := by ring
  rw [hform]
  positivity

theorem Vpv_zero (s p : ℤ) : Vpv (PVModel.init (.int s) (.int p)) 0 = 0 := by
  unfold Vpv linspace
  norm_num

theorem I_ph_mono (s p : ℤ) (G1 G2 T : ℝ)
    (hc : 0 ≤ (PVModel.init (.int s) (.int p)).I_sc +
      (PVModel.init (.int s) (.int p)).k_i * (T - 298)) (h12 : G1 ≤ G2) :
    (PVModel.init (.int s) (.int p)).I_ph G1 T
      ≤ (PVModel.init (.int s) (.int p)).I_ph G2 T := by
  unfold PVModel.I_ph
  have hdiv : G1 / 1000 ≤ G2 / 1000 := by linarith
  exact mul_le_mul_of_nonneg_left hdiv hc

theorem I_ph_nonpos (s p : ℤ) (G T : ℝ)
    (hc : (PVModel.init (.int s) (.int p)).I_sc +
      (PVModel.init (.int s) (.int p)).k_i * (T - 298) ≤ 0) (hG : 0 ≤ G) :
    (PVModel.init (.int s) (.int p)).I_ph G T ≤ 0 := by
  unfold PVModel.I_ph
  have hdiv : 0 ≤ G / 1000 := by positivity
  nlinarith

/-! ### The claims -/

/-- Claim C4: for every positive integer `seriesCount` and `parallelCount`,
the configuration built by `PVModel.__init__` satisfies exactly
`shortCircuitCurrent = 9.35 × parallelCount`,
`openCircuitVoltage = 47.4 × seriesCount` and
`cellsInSeries = 72 × seriesCount`. -/
theorem claim_C4_derived_constants (s p : ℤ) (hs : 0 < s) (hp : 0 < p) :
    (PVModel.init (.int s) (.int p)).I_sc = 9.35 * (p : ℝ) ∧
    (PVModel.init (.int s) (.int p)).V_oc = 47.4 * (s : ℝ) ∧
    (PVModel.init (.int s) (.int p)).N_s = 72 * (s : ℝ) :=
  ⟨rfl, rfl, rfl⟩

/-- Witness for C4 at the spec's scenario `seriesCount = 4`,
`parallelCount = 3`, where moreover `I_sc = 28.05` and `V_oc = 189.6`. -/
theorem claim_C4_witness :
    ((0 : ℤ) < 4 ∧ (0 : ℤ) < 3) ∧
    (PVModel.init (.int 4) (.int 3)).I_sc = 9.35 * ((3 : ℤ) : ℝ) ∧
    (PVModel.init (.int 4) (.int 3)).V_oc = 47.4 * ((4 : ℤ) : ℝ) ∧
    (PVModel.init (.int 4) (.int 3)).N_s = 72 * ((4 : ℤ) : ℝ) :=
  ⟨⟨by norm_num, by norm_num⟩,
    claim_C4_derived_constants 4 3 (by norm_num) (by norm_num)⟩

/-- Claim C7: the intermediate quantities computed by `modelo_pv` equal the
specification's formulas for `I_rs`, `I_o` and `I_ph`, with the fixed
reference temperature `T_ref = 298 K`. -/
theorem claim_C7_intermediate_formulas (s p : ℤ) (G T : ℝ)
    (hs : 0 < s) (hp : 0 < p) (hG : 0 < G) (hT : 0 < T) :
    (PVModel.init (.int s) (.int p)).I_rs T
      = specIrs (PVModel.init (.int s) (.int p)).I_sc
          (PVModel.init (.int s) (.int p)).V_oc (PVModel.init (.int s) (.int p)).N_s
          (PVModel.init (.int s) (.int p)).q (PVModel.init (.int s) (.int p)).n
          (PVModel.init (.int s) (.int p)).K T ∧
    (PVModel.init (.int s) (.int p)).I_o T
      = specIo ((PVModel.init (.int s) (.int p)).I_rs T) T Tref
          (PVModel.init (.int s) (.int p)).q (PVModel.init (.int s) (.int p)).E_g0
          (PVModel.init (.int s) (.int p)).n (PVModel.init (.int s) (.int p)).K ∧
    (PVModel.init (.int s) (.int p)).I_ph G T
      = specIph (PVModel.init (.int s) (.int p)).I_sc
          (PVModel.init (.int s) (.int p)).k_i T Tref G :=
  ⟨rfl, rfl, rfl⟩

/-- Witness for C7 at the spec's scenario
`(seriesCount, parallelCount, G, T) = (4, 3, 1000, 298)`. -/
theorem claim_C7_witness :
    ((0 : ℤ) < 4 ∧ (0 : ℤ) < 3 ∧ (0 : ℝ) < 1000 ∧ (0 : ℝ) < 298) ∧
    (PVModel.init (.int 4) (.int 3)).I_rs 298
      = specIrs (PVModel.init (.int 4) (.int 3)).I_sc
          (PVModel.init (.int 4) (.int 3)).V_oc (PVModel.init (.int 4) (.int 3)).N_s
          (PVModel.init (.int 4) (.int 3)).q (PVModel.init (.int 4) (.int 3)).n
          (PVModel.init (.int 4) (.int 3)).K 298 ∧
    (PVModel.init (.int 4) (.int 3)).I_o 298
      = specIo ((PVModel.init (.int 4) (.int 3)).I_rs 298) 298 Tref
          (PVModel.init (.int 4) (.int 3)).q (PVModel.init (.int 4) (.int 3)).E_g0
          (PVModel.init (.int 4) (.int 3)).n (PVModel.init (.int 4) (.int 3)).K ∧
    (PVModel.init (.int 4) (.int 3)).I_ph 1000 298
      = specIph (PVModel.init (.int 4) (.int 3)).I_sc
          (PVModel.init (.int 4) (.int 3)).k_i 298 Tref 1000 :=
  ⟨⟨by norm_num, by norm_num, by norm_num, by norm_num⟩,
    claim_C7_intermediate_formulas 4 3 1000 298
      (by norm_num) (by norm_num) (by norm_num) (by norm_num)⟩

/-- Claim C9: `solve` is deterministic — two calls with identical
`(seriesCount, parallelCount, irradiance, temperature)` and the same
root-finding procedure return identical results. -/
theorem claim_C9_deterministic (fsolve : FsolveOracle)
    (s p s2 p2 : ℤ) (G T G2 T2 : ℝ)
    (hs : 0 < s) (hp : 0 < p) (hG : 0 < G) (hT : 0 < T)
    (hseq : s = s2) (hpeq : p = p2) (hGeq : G = G2) (hTeq : T = T2) :
    solve fsolve (.int s) (.int p) (.float G) (.float T)
      = solve fsolve (.int s2) (.int p2) (.float G2) (.float T2) := by
  subst hseq hpeq hGeq hTeq
  rfl

/-- Witness for C9 at `(4, 3, 1000, 298)` with a concrete oracle. -/
theorem claim_C9_witness :
    solve (fun _ guess _ => (guess, true)) (.int 4) (.int 3) (.float 1000) (.float 298)
      = solve (fun _ guess _ => (guess, true)) (.int 4) (.int 3) (.float 1000) (.float 298) :=
  claim_C9_deterministic _ 4 3 4 3 1000 298 1000 298
    (by norm_num) (by norm_num) (by norm_num) (by norm_num) rfl rfl rfl rfl

/-- Claim C10: `validate_inputs` checks irradiance, then temperature, then
series count, then parallel count; the first failing check in that fixed
order determines the raised error, so when both the operating condition and
the array configuration are invalid the operating-condition error is
reported; a validation error is exactly the error `modelo_pv` fails with. -/
theorem claim_C10_validation_order (m : PVModel) (G T : PyNum) :
    (¬(G.isNumber = true) ∨ G.leZero →
        m.validate_inputs G T = some .invalidIrradiance) ∧
    ((G.isNumber = true ∧ ¬G.leZero) → (¬(T.isNumber = true) ∨ T.leZero) →
        m.validate_inputs G T = some .invalidTemperature) ∧
    ((G.isNumber = true ∧ ¬G.leZero) → (T.isNumber = true ∧ ¬T.leZero) →
        (¬(m.num_panels_series.isInt = true) ∨ m.num_panels_series.leZero) →
        m.validate_inputs G T = some .invalidSeriesCount) ∧
    ((G.isNumber = true ∧ ¬G.leZero) → (T.isNumber = true ∧ ¬T.leZero) →
        (m.num_panels_series.isInt = true ∧ ¬m.num_panels_series.leZero) →
        (¬(m.num_panels_parallel.isInt = true) ∨ m.num_panels_parallel.leZero) →
        m.validate_inputs G T = some .invalidParallelCount) ∧
    PVError.invalidIrradiance.isInvalidOperatingCondition ∧
    PVError.invalidTemperature.isInvalidOperatingCondition ∧
    (∀ (fsolve : FsolveOracle) (e : PVError), m.validate_inputs G T = some e →
        m.modelo_pv fsolve G T = .error e) := by
  unfold PVModel.validate_inputs
  refine ⟨?_, ?_, ?_, ?_, Or.inl rfl, Or.inr rfl, ?_⟩
  · intro h
    rw [if_pos h]
  · intro hG hT
    rw [if_neg (by push_neg; exact hG), if_pos hT]
  · intro hG hT hS
    rw [if_neg (by push_neg; exact hG), if_neg (by push_neg; exact hT), if_pos hS]
  · intro hG hT hS hP
    rw [if_neg (by push_neg; exact hG), if_neg (by push_neg; exact hT),
      if_neg (by push_neg; exact hS), if_pos hP]
  · intro fsolve e he
    have he' : m.validate_inputs G T = some e := he
    unfold PVModel.modelo_pv
    rw [he']

/-- Claim C2: for every valid input, the voltage sequence of the returned
curve consists of exactly 1000 evenly spaced samples from 0 to
`openCircuitVoltage` (sample `i` is `V_oc·i/999`), includes both endpoints,
and is strictly increasing. -/
theorem claim_C2_voltage_sweep (fsolve : FsolveOracle) (s p : ℤ) (G T : ℝ)
    (hs : 0 < s) (hp : 0 < p) (hG : 0 < G) (hT : 0 < T) (r : SolveResult)
    (hr : (PVModel.init (.int s) (.int p)).modelo_pv fsolve (.float G) (.float T)
        = .ok r) :
    r.resultados.length = 1000 ∧
    (∀ i, i < 1000 → (r.resultados.getD i (0, 0, 0)).2.1
        = (PVModel.init (.int s) (.int p)).V_oc * i / 999) ∧
    (r.resultados.getD 0 (0, 0, 0)).2.1 = 0 ∧
    (r.resultados.getD 999 (0, 0, 0)).2.1 = (PVModel.init (.int s) (.int p)).V_oc ∧
    (∀ i j, i < j → j < 1000 →
        (r.resultados.getD i (0, 0, 0)).2.1 < (r.resultados.getD j (0, 0, 0)).2.1) := by
  rw [modelo_pv_ok fsolve s p G T hs hp hG hT] at hr
  injection hr with hr
  subst hr
  have hrows := computeCurve_resultados fsolve (PVModel.init (.int s) (.int p)) G T
  have hVpv : ∀ i : ℕ, Vpv (PVModel.init (.int s) (.int p)) i
      = (PVModel.init (.int s) (.int p)).V_oc * i / 999 := by
    intro i
    unfold Vpv linspace
    norm_num
  have hgetV : ∀ i, i < 1000 →
      ((computeCurve fsolve (PVModel.init (.int s) (.int p)) G T).resultados.getD
        i (0, 0, 0)).2.1 = (PVModel.init (.int s) (.int p)).V_oc * i / 999 := by
    intro i hi
    rw [hrows, curveRows_getD _ _ _ _ i hi]
    exact hVpv i
  have hVoc : (0 : ℝ) < (PVModel.init (.int s) (.int p)).V_oc := by
    have hs' : (0 : ℝ) < (s : ℝ) := by exact_mod_cast hs
    have : (PVModel.init (.int s) (.int p)).V_oc = 47.4 * (s : ℝ) := rfl
    rw [this]
    positivity
  refine ⟨by rw [hrows, curveRows_length], hgetV, ?_, ?_, ?_⟩
  · rw [hgetV 0 (by norm_num)]
    norm_num
  · rw [hgetV 999 (by norm_num)]
    norm_num
  · intro i j hij hj
    rw [hgetV i (lt_trans hij hj), hgetV j hj]
    have hcast : (i : ℝ) < (j : ℝ) := by exact_mod_cast hij
    have hmul : (PVModel.init (.int s) (.int p)).V_oc * i
        < (PVModel.init (.int s) (.int p)).V_oc * j :=
      mul_lt_mul_of_pos_left hcast hVoc
    exact (div_lt_div_iff_of_pos_right (by norm_num)).mpr hmul

/-- Witness for C2 at `(4, 3, 1000, 298)` with a concrete oracle. -/
theorem claim_C2_witness :
    (computeCurve (fun _ g _ => (g, true)) (PVModel.init (.int 4) (.int 3))
        1000 298).resultados.length = 1000 ∧
    (∀ i, i < 1000 → ((computeCurve (fun _ g _ => (g, true))
        (PVModel.init (.int 4) (.int 3)) 1000 298).resultados.getD i (0, 0, 0)).2.1
        = (PVModel.init (.int 4) (.int 3)).V_oc * i / 999) ∧
    ((computeCurve (fun _ g _ => (g, true)) (PVModel.init (.int 4) (.int 3))
        1000 298).resultados.getD 0 (0, 0, 0)).2.1 = 0 ∧
    ((computeCurve (fun _ g _ => (g, true)) (PVModel.init (.int 4) (.int 3))
        1000 298).resultados.getD 999 (0, 0, 0)).2.1
      = (PVModel.init (.int 4) (.int 3)).V_oc ∧
    (∀ i j, i < j → j < 1000 →
        ((computeCurve (fun _ g _ => (g, true)) (PVModel.init (.int 4) (.int 3))
          1000 298).resultados.getD i (0, 0, 0)).2.1
        < ((computeCurve (fun _ g _ => (g, true)) (PVModel.init (.int 4) (.int 3))
          1000 298).resultados.getD j (0, 0, 0)).2.1) :=
  claim_C2_voltage_sweep (fun _ g _ => (g, true)) 4 3 1000 298
    (by norm_num) (by norm_num) (by norm_num) (by norm_num) _
    (modelo_pv_ok _ 4 3 1000 298 (by norm_num) (by norm_num) (by norm_num) (by norm_num))

/-- Claim C3: for every valid input, `power[i] = voltage[i] × current[i]`
exactly, for every row of the returned curve. -/
theorem claim_C3_power_product (fsolve : FsolveOracle) (s p : ℤ) (G T : ℝ)
    (hs : 0 < s) (hp : 0 < p) (hG : 0 < G) (hT : 0 < T) (r : SolveResult)
    (hr : (PVModel.init (.int s) (.int p)).modelo_pv fsolve (.float G) (.float T)
        = .ok r) :
    ∀ i, i < 1000 → (r.resultados.getD i (0, 0, 0)).2.2
      = (r.resultados.getD i (0, 0, 0)).2.1 * (r.resultados.getD i (0, 0, 0)).1 := by
  rw [modelo_pv_ok fsolve s p G T hs hp hG hT] at hr
  injection hr with hr
  subst hr
  intro i hi
  rw [computeCurve_resultados, curveRows_getD _ _ _ _ i hi]
  rfl

/-- Witness for C3 at `(4, 3, 1000, 298)` with a concrete oracle, at the
middle sample `i = 500`. -/
theorem claim_C3_witness :
    ((computeCurve (fun _ g _ => (g, true)) (PVModel.init (.int 4) (.int 3))
        1000 298).resultados.getD 500 (0, 0, 0)).2.2
      = ((computeCurve (fun _ g _ => (g, true)) (PVModel.init (.int 4) (.int 3))
          1000 298).resultados.getD 500 (0, 0, 0)).2.1
        * ((computeCurve (fun _ g _ => (g, true)) (PVModel.init (.int 4) (.int 3))
          1000 298).resultados.getD 500 (0, 0, 0)).1 :=
  claim_C3_power_product (fun _ g _ => (g, true)) 4 3 1000 298
    (by norm_num) (by norm_num) (by norm_num) (by norm_num) _
    (modelo_pv_ok _ 4 3 1000 298 (by norm_num) (by norm_num) (by norm_num) (by norm_num))
    500 (by norm_num)

/-- Claim C1: for every valid input, `Pmax` is the maximum of the power
column over the returned curve, `(Vmpp, Impp)` is the `(voltage, current)`
pair at that same row, and the chosen row is the first occurrence of the
maximum (every earlier row has strictly smaller power), which is the first
occurrence in ascending-voltage order since voltages ascend with the index. -/
theorem claim_C1_mpp_extraction (fsolve : FsolveOracle) (s p : ℤ) (G T : ℝ)
    (hs : 0 < s) (hp : 0 < p) (hG : 0 < G) (hT : 0 < T) (r : SolveResult)
    (hr : (PVModel.init (.int s) (.int p)).modelo_pv fsolve (.float G) (.float T)
        = .ok r) :
    ∃ k, k < 1000 ∧
      r.P_max = (r.resultados.getD k (0, 0, 0)).2.2 ∧
      r.Vmpp = (r.resultados.getD k (0, 0, 0)).2.1 ∧
      r.Impp = (r.resultados.getD k (0, 0, 0)).1 ∧
      (∀ j, j < 1000 → (r.resultados.getD j (0, 0, 0)).2.2 ≤ r.P_max) ∧
      (∀ j, j < k → (r.resultados.getD j (0, 0, 0)).2.2 < r.P_max) := by
  rw [modelo_pv_ok fsolve s p G T hs hp hG hT] at hr
  injection hr with hr
  subst hr
  refine ⟨max_power_idx fsolve (PVModel.init (.int s) (.int p)) G T,
    max_power_idx_lt _ _ _ _, ?_, ?_, ?_, ?_, ?_⟩
  · rw [computeCurve_resultados,
      curveRows_getD _ _ _ _ _ (max_power_idx_lt fsolve _ G T)]
    exact computeCurve_P_max fsolve _ G T
  · rw [computeCurve_resultados,
      curveRows_getD _ _ _ _ _ (max_power_idx_lt fsolve _ G T)]
    exact computeCurve_Vmpp fsolve _ G T
  · rw [computeCurve_resultados,
      curveRows_getD _ _ _ _ _ (max_power_idx_lt fsolve _ G T)]
    exact computeCurve_Impp fsolve _ G T
  · intro j hj
    rw [computeCurve_resultados, curveRows_getD _ _ _ _ j hj, computeCurve_P_max]
    exact Ppv_le_Ppv_idx fsolve _ G T j hj
  · intro j hj
    have hj1000 : j < 1000 := lt_trans hj (max_power_idx_lt fsolve _ G T)
    rw [computeCurve_resultados, curveRows_getD _ _ _ _ j hj1000, computeCurve_P_max]
    exact Ppv_lt_Ppv_idx_of_lt fsolve _ G T j hj

/-- Witness for C1 at `(4, 3, 1000, 298)` with a concrete oracle. -/
theorem claim_C1_witness :
    ∃ k, k < 1000 ∧
      (computeCurve (fun _ g _ => (g, true)) (PVModel.init (.int 4) (.int 3))
          1000 298).P_max
        = ((computeCurve (fun _ g _ => (g, true)) (PVModel.init (.int 4) (.int 3))
            1000 298).resultados.getD k (0, 0, 0)).2.2 ∧
      (computeCurve (fun _ g _ => (g, true)) (PVModel.init (.int 4) (.int 3))
          1000 298).Vmpp
        = ((computeCurve (fun _ g _ => (g, true)) (PVModel.init (.int 4) (.int 3))
            1000 298).resultados.getD k (0, 0, 0)).2.1 ∧
      (computeCurve (fun _ g _ => (g, true)) (PVModel.init (.int 4) (.int 3))
          1000 298).Impp
        = ((computeCurve (fun _ g _ => (g, true)) (PVModel.init (.int 4) (.int 3))
            1000 298).resultados.getD k (0, 0, 0)).1 ∧
      (∀ j, j < 1000 →
        ((computeCurve (fun _ g _ => (g, true)) (PVModel.init (.int 4) (.int 3))
            1000 298).resultados.getD j (0, 0, 0)).2.2
          ≤ (computeCurve (fun _ g _ => (g, true)) (PVModel.init (.int 4) (.int 3))
              1000 298).P_max) ∧
      (∀ j, j < k →
        ((computeCurve (fun _ g _ => (g, true)) (PVModel.init (.int 4) (.int 3))
            1000 298).resultados.getD j (0, 0, 0)).2.2
          < (computeCurve (fun _ g _ => (g, true)) (PVModel.init (.int 4) (.int 3))
              1000 298).P_max) :=
  claim_C1_mpp_extraction (fun _ g _ => (g, true)) 4 3 1000 298
    (by norm_num) (by norm_num) (by norm_num) (by norm_num) _
    (modelo_pv_ok _ 4 3 1000 298 (by norm_num) (by norm_num) (by norm_num) (by norm_num))

/-- Witness for C10: `seriesCount = 0` and `irradiance = -5` are both
invalid, and the reported error is the irradiance one. -/
theorem claim_C10_witness :
    (PVModel.init (.int 0) (.int 3)).validate_inputs (.float (-5)) (.float 298)
      = some .invalidIrradiance :=
  (claim_C10_validation_order (PVModel.init (.int 0) (.int 3))
      (.float (-5)) (.float 298)).1
    (Or.inr (show ((-5 : ℝ)) ≤ 0 by norm_num))

/-- Counterexample to claim C5 as stated: `irradiance = inf` is not a
finite, real, strictly positive number, yet `validate_inputs` accepts it
(`inf <= 0` is false and `inf` is a float) and `modelo_pv` proceeds to a
result instead of failing; moreover with `seriesCount = 0` and
`irradiance = -5` simultaneously invalid, the raised error is the
irradiance one, which is not an `InvalidArrayConfig`, refuting the claimed
`InvalidArrayConfig` iff as well. -/
theorem claim_C5_counterexample :
    (PVModel.init (.int 4) (.int 3)).validate_inputs .inf (.float 298) = none ∧
    ¬ finiteRealPositive .inf ∧
    ((PVModel.init (.int 4) (.int 3)).modelo_pv (fun _ g _ => (g, true)) .inf
        (.float 298)).isOk = true ∧
    (PVModel.init (.int 0) (.int 3)).validate_inputs (.float (-5)) (.float 298)
      = some .invalidIrradiance ∧
    ¬ PVError.invalidIrradiance.isInvalidArrayConfig := by
  have h1 : (PVModel.init (.int 4) (.int 3)).validate_inputs .inf (.float 298)
      = none :=
    validate_ok _ _ _ ⟨rfl, fun h => h⟩ ⟨rfl, show ¬((298 : ℝ) ≤ 0) by norm_num⟩
      ⟨rfl, show ¬((4 : ℤ) ≤ 0) by norm_num⟩ ⟨rfl, show ¬((3 : ℤ) ≤ 0) by norm_num⟩
  refine ⟨h1, fun h => h, ?_, ?_, ?_⟩
  · unfold PVModel.modelo_pv
    rw [h1]
    rfl
  · exact validate_irr _ _ _ (Or.inr (show ((-5 : ℝ)) ≤ 0 by norm_num))
  · intro h
    rcases h with h | h <;> exact PVError.noConfusion h

/-- Claim C5 as amended: `solve` rejects via `validate_inputs` before any
numeric work, failing with an operating-condition error iff the irradiance
or the temperature is not an int/float or compares `<= 0` — so NaN and
`+inf` pass the check and are not rejected — and failing with an
array-config error iff irradiance and temperature pass and the series or
parallel count is not a positive int; any validation error is exactly the
error `modelo_pv` fails with, independently of the root-finding oracle. -/
theorem claim_C5_amended_error_characterisation (sp pp G T : PyNum) :
    ((∃ e, (PVModel.init sp pp).validate_inputs G T = some e ∧
        e.isInvalidOperatingCondition)
      ↔ ¬(G.isNumber = true) ∨ G.leZero ∨ ¬(T.isNumber = true) ∨ T.leZero) ∧
    ((∃ e, (PVModel.init sp pp).validate_inputs G T = some e ∧
        e.isInvalidArrayConfig)
      ↔ (G.isNumber = true ∧ ¬G.leZero) ∧ (T.isNumber = true ∧ ¬T.leZero) ∧
          (¬(sp.isInt = true) ∨ sp.leZero ∨ ¬(pp.isInt = true) ∨ pp.leZero)) ∧
    (∀ (fsolve : FsolveOracle) (e : PVError),
        (PVModel.init sp pp).validate_inputs G T = some e →
        (PVModel.init sp pp).modelo_pv fsolve G T = .error e) := by
  by_cases hg : ¬(G.isNumber = true) ∨ G.leZero
  · have hv := validate_irr (PVModel.init sp pp) G T hg
    refine ⟨?_, ?_, fun fsolve e he => modelo_pv_error _ fsolve G T e he⟩
    · rw [hv]
      constructor
      · intro _
        rcases hg with h | h
        · exact Or.inl h
        · exact Or.inr (Or.inl h)
      · intro _
        exact ⟨.invalidIrradiance, rfl, Or.inl rfl⟩
    · rw [hv]
      constructor
      · rintro ⟨e, he, harr⟩
        injection he with he
        subst he
        rcases harr with h | h <;> exact PVError.noConfusion h
      · rintro ⟨hA, _, _⟩
        rcases hg with h | h
        · exact absurd hA.1 h
        · exact absurd h hA.2
  · push_neg at hg
    by_cases ht : ¬(T.isNumber = true) ∨ T.leZero
    · have hv := validate_temp (PVModel.init sp pp) G T hg ht
      refine ⟨?_, ?_, fun fsolve e he => modelo_pv_error _ fsolve G T e he⟩
      · rw [hv]
        constructor
        · intro _
          rcases ht with h | h
          · exact Or.inr (Or.inr (Or.inl h))
          · exact Or.inr (Or.inr (Or.inr h))
        · intro _
          exact ⟨.invalidTemperature, rfl, Or.inr rfl⟩
      · rw [hv]
        constructor
        · rintro ⟨e, he, harr⟩
          injection he with he
          subst he
          rcases harr with h | h <;> exact PVError.noConfusion h
        · rintro ⟨_, hB, _⟩
          rcases ht with h | h
          · exact absurd hB.1 h
          · exact absurd h hB.2
    · push_neg at ht
      by_cases hs : ¬(sp.isInt = true) ∨ sp.leZero
      · have hv := validate_series (PVModel.init sp pp) G T hg ht hs
        refine ⟨?_, ?_, fun fsolve e he => modelo_pv_error _ fsolve G T e he⟩
        · rw [hv]
          constructor
          · rintro ⟨e, he, hop⟩
            injection he with he
            subst he
            rcases hop with h | h <;> exact PVError.noConfusion h
          · rintro (h | h | h | h)
            · exact absurd hg.1 h
            · exact absurd h hg.2
            · exact absurd ht.1 h
            · exact absurd h ht.2
        · rw [hv]
          constructor
          · intro _
            refine ⟨hg, ht, ?_⟩
            rcases hs with h | h
            · exact Or.inl h
            · exact Or.inr (Or.inl h)
          · intro _
            exact ⟨.invalidSeriesCount, rfl, Or.inl rfl⟩
      · push_neg at hs
        by_cases hq : ¬(pp.isInt = true) ∨ pp.leZero
        · have hv := validate_par (PVModel.init sp pp) G T hg ht hs hq
          refine ⟨?_, ?_, fun fsolve e he => modelo_pv_error _ fsolve G T e he⟩
          · rw [hv]
            constructor
            · rintro ⟨e, he, hop⟩
              injection he with he
              subst he
              rcases hop with h | h <;> exact PVError.noConfusion h
            · rintro (h | h | h | h)
              · exact absurd hg.1 h
              · exact absurd h hg.2
              · exact absurd ht.1 h
              · exact absurd h ht.2
          · rw [hv]
            constructor
            · intro _
              refine ⟨hg, ht, ?_⟩
              rcases hq with h | h
              · exact Or.inr (Or.inr (Or.inl h))
              · exact Or.inr (Or.inr (Or.inr h))
            · intro _
              exact ⟨.invalidParallelCount, rfl, Or.inr rfl⟩
        · push_neg at hq
          have hv := validate_ok (PVModel.init sp pp) G T hg ht hs hq
          refine ⟨?_, ?_, fun fsolve e he => modelo_pv_error _ fsolve G T e he⟩
          · rw [hv]
            constructor
            · rintro ⟨e, he, _⟩
              exact Option.noConfusion he
            · rintro (h | h | h | h)
              · exact absurd hg.1 h
              · exact absurd h hg.2
              · exact absurd ht.1 h
              · exact absurd h ht.2
          · rw [hv]
            constructor
            · rintro ⟨e, he, _⟩
              exact Option.noConfusion he
            · rintro ⟨_, _, (h | h | h | h)⟩
              · exact absurd hs.1 h
              · exact absurd h hs.2
              · exact absurd hq.1 h
              · exact absurd h hq.2

/-- Witness for the amended C5, instantiated at the NaN irradiance that the
original claim wrongly said would be rejected. -/
theorem claim_C5_amended_witness :
    (∃ e, (PVModel.init (.int 4) (.int 3)).validate_inputs .nan (.float 298)
        = some e ∧ e.isInvalidOperatingCondition)
      ↔ ¬(PyNum.nan.isNumber = true) ∨ PyNum.nan.leZero
        ∨ ¬((PyNum.float 298).isNumber = true) ∨ (PyNum.float 298).leZero :=
  (claim_C5_amended_error_characterisation (.int 4) (.int 3) .nan (.float 298)).1

/-- Claim C6 (code bug): `modelo_pv` never fails with the spec's
`RootFindingFailure` — for every root-finding oracle, every result of the
oracle (converged or not) is incorporated into the returned curve as-is,
and on validated inputs the call returns `ok`; non-convergence is silently
propagated rather than surfaced, contradicting §4.3/§6 of the spec, which
the spec itself records as a latent defect of this reference code (§7). -/
theorem claim_C6_no_root_failure :
    (∀ (m : PVModel) (fsolve : FsolveOracle) (G T : PyNum),
        m.modelo_pv fsolve G T ≠ .error .rootFindingFailure) ∧
    (∀ (fsolve : FsolveOracle) (s p : ℤ) (G T : ℝ),
        0 < s → 0 < p → 0 < G → 0 < T →
        (PVModel.init (.int s) (.int p)).modelo_pv fsolve (.float G) (.float T)
          = .ok (computeCurve fsolve (PVModel.init (.int s) (.int p)) G T) ∧
        ∀ i, i < 1000 →
          ((computeCurve fsolve (PVModel.init (.int s) (.int p)) G T).resultados.getD
              i (0, 0, 0)).1
            = (fsolve ((PVModel.init (.int s) (.int p)).circuit
                  ((PVModel.init (.int s) (.int p)).I_ph G T)
                  ((PVModel.init (.int s) (.int p)).I_o T) T)
                (PVModel.init (.int s) (.int p)).I_sc
                (Vpv (PVModel.init (.int s) (.int p)) i)).1) := by
  constructor
  · intro m fsolve G T h
    unfold PVModel.modelo_pv at h
    cases hv : m.validate_inputs G T with
    | none =>
      rw [hv] at h
      exact Except.noConfusion h
    | some e =>
      rw [hv] at h
      injection h with h2
      exact validate_ne_rootFailure m G T (h2 ▸ hv)
  · intro fsolve s p G T hs hp hG hT
    refine ⟨modelo_pv_ok fsolve s p G T hs hp hG hT, ?_⟩
    intro i hi
    rw [computeCurve_resultados, curveRows_getD _ _ _ _ i hi]
    rfl

/-- Witness for C6 with an oracle that reports non-convergence on every
sample: the call still returns `ok` and not `RootFindingFailure`. -/
theorem claim_C6_witness :
    (PVModel.init (.int 4) (.int 3)).modelo_pv (fun _ _ _ => (0, false))
        (.float 1000) (.float 298) ≠ .error .rootFindingFailure ∧
    (PVModel.init (.int 4) (.int 3)).modelo_pv (fun _ _ _ => (0, false))
        (.float 1000) (.float 298)
      = .ok (computeCurve (fun _ _ _ => (0, false)) (PVModel.init (.int 4) (.int 3))
          1000 298) :=
  ⟨claim_C6_no_root_failure.1 _ _ _ _,
    (claim_C6_no_root_failure.2 (fun _ _ _ => (0, false)) 4 3 1000 298
      (by norm_num) (by norm_num) (by norm_num) (by norm_num)).1⟩

/-- Claim C8: with the spec-modelled exact root-finder (§4.3), for a fixed
valid config and temperature, `Pmax` is monotonically non-decreasing in the
irradiance: if `0 < G1 ≤ G2` then the `P_max` of the solve at `G1` is at
most the `P_max` of the solve at `G2`.  When the photocurrent coefficient
`I_sc + k_i·(T − 298)` is nonnegative the curve currents, hence the powers,
grow pointwise with `G`; when it is negative every power is nonpositive and
both maxima are attained as `0` at the `V = 0` sample. -/
theorem claim_C8_pmax_monotone (s p : ℤ) (T G1 G2 : ℝ)
    (hs : 0 < s) (hp : 0 < p) (hT : 0 < T) (hG1 : 0 < G1) (hG12 : G1 ≤ G2) :
    ∃ r1 r2,
      (PVModel.init (.int s) (.int p)).modelo_pv exactSolver
        (.float G1) (.float T) = .ok r1 ∧
      (PVModel.init (.int s) (.int p)).modelo_pv exactSolver
        (.float G2) (.float T) = .ok r2 ∧
      r1.P_max ≤ r2.P_max := by
  have hG2 : 0 < G2 := lt_of_lt_of_le hG1 hG12
  refine ⟨computeCurve exactSolver (PVModel.init (.int s) (.int p)) G1 T,
    computeCurve exactSolver (PVModel.init (.int s) (.int p)) G2 T,
    modelo_pv_ok exactSolver s p G1 T hs hp hG1 hT,
    modelo_pv_ok exactSolver s p G2 T hs hp hG2 hT, ?_⟩
  rw [computeCurve_P_max, computeCurve_P_max]
  by_cases hc : 0 ≤ (PVModel.init (.int s) (.int p)).I_sc +
      (PVModel.init (.int s) (.int p)).k_i * (T - 298)
  · have hIph := I_ph_mono s p G1 G2 T hc hG12
    have hcur : ∀ i : ℕ,
        Ipv exactSolver (PVModel.init (.int s) (.int p)) G1 T i
          ≤ Ipv exactSolver (PVModel.init (.int s) (.int p)) G2 T i := by
      intro i
      exact diodeF_root_mono
        ((PVModel.init (.int s) (.int p)).I_ph G1 T)
        ((PVModel.init (.int s) (.int p)).I_ph G2 T)
        ((PVModel.init (.int s) (.int p)).I_o T)
        ((PVModel.init (.int s) (.int p)).q /
          ((PVModel.init (.int s) (.int p)).n * (PVModel.init (.int s) (.int p)).K *
            (PVModel.init (.int s) (.int p)).N_s * T))
        (PVModel.init (.int s) (.int p)).R_s (PVModel.init (.int s) (.int p)).R_sh
        (Vpv (PVModel.init (.int s) (.int p)) i) _ _
        (I_o_pos s p T hs hp hT) (init_a_pos s p T hs hT)
        (init_Rs_pos _ _) (init_Rsh_pos _ _) hIph
        (Ipv_exact_root s p G1 T hs hp hT i)
        (Ipv_exact_root s p G2 T hs hp hT i)
    have hpow : ∀ i : ℕ,
        Ppv exactSolver (PVModel.init (.int s) (.int p)) G1 T i
          ≤ Ppv exactSolver (PVModel.init (.int s) (.int p)) G2 T i := by
      intro i
      unfold Ppv
      exact mul_le_mul_of_nonneg_left (hcur i) (Vpv_nonneg s p hs i)
    calc Ppv exactSolver (PVModel.init (.int s) (.int p)) G1 T
          (max_power_idx exactSolver (PVModel.init (.int s) (.int p)) G1 T)
        ≤ Ppv exactSolver (PVModel.init (.int s) (.int p)) G2 T
          (max_power_idx exactSolver (PVModel.init (.int s) (.int p)) G1 T) := hpow _
      _ ≤ Ppv exactSolver (PVModel.init (.int s) (.int p)) G2 T
          (max_power_idx exactSolver (PVModel.init (.int s) (.int p)) G2 T) :=
          Ppv_le_Ppv_idx exactSolver (PVModel.init (.int s) (.int p)) G2 T _
            (max_power_idx_lt exactSolver (PVModel.init (.int s) (.int p)) G1 T)
  · push_neg at hc
    have hIph1 : (PVModel.init (.int s) (.int p)).I_ph G1 T ≤ 0 :=
      I_ph_nonpos s p G1 T (le_of_lt hc) (le_of_lt hG1)
    have hIph2 : (PVModel.init (.int s) (.int p)).I_ph G2 T ≤ 0 :=
      I_ph_nonpos s p G2 T (le_of_lt hc) (le_of_lt hG2)
    have hr1 : ∀ i : ℕ,
        Ipv exactSolver (PVModel.init (.int s) (.int p)) G1 T i ≤ 0 := by
      intro i
      exact diodeF_root_nonpos
        ((PVModel.init (.int s) (.int p)).I_ph G1 T)
        ((PVModel.init (.int s) (.int p)).I_o T)
        ((PVModel.init (.int s) (.int p)).q /
          ((PVModel.init (.int s) (.int p)).n * (PVModel.init (.int s) (.int p)).K *
            (PVModel.init (.int s) (.int p)).N_s * T))
        (PVModel.init (.int s) (.int p)).R_s (PVModel.init (.int s) (.int p)).R_sh
        (Vpv (PVModel.init (.int s) (.int p)) i) _
        (I_o_pos s p T hs hp hT) (init_a_pos s p T hs hT)
        (init_Rs_pos _ _) (init_Rsh_pos _ _) hIph1 (Vpv_nonneg s p hs i)
        (Ipv_exact_root s p G1 T hs hp hT i)
    have hP1 : ∀ i : ℕ,
        Ppv exactSolver (PVModel.init (.int s) (.int p)) G1 T i ≤ 0 := by
      intro i
      unfold Ppv
      have hV := Vpv_nonneg s p hs i
      have hI := hr1 i
      nlinarith
    have hP20 : Ppv exactSolver (PVModel.init (.int s) (.int p)) G2 T 0 = 0 := by
      unfold Ppv
      rw [Vpv_zero s p, zero_mul]
    calc Ppv exactSolver (PVModel.init (.int s) (.int p)) G1 T
          (max_power_idx exactSolver (PVModel.init (.int s) (.int p)) G1 T)
        ≤ 0 := hP1 _
      _ = Ppv exactSolver (PVModel.init (.int s) (.int p)) G2 T 0 := hP20.symm
      _ ≤ Ppv exactSolver (PVModel.init (.int s) (.int p)) G2 T
          (max_power_idx exactSolver (PVModel.init (.int s) (.int p)) G2 T) :=
          Ppv_le_Ppv_idx exactSolver (PVModel.init (.int s) (.int p)) G2 T 0
            (by norm_num)

/-- Witness for C8 at `(4, 3, T = 298, G1 = 500 ≤ G2 = 1000)`. -/
theorem claim_C8_witness :
    ∃ r1 r2,
      (PVModel.init (.int 4) (.int 3)).modelo_pv exactSolver
        (.float 500) (.float 298) = .ok r1 ∧
      (PVModel.init (.int 4) (.int 3)).modelo_pv exactSolver
        (.float 1000) (.float 298) = .ok r2 ∧
      r1.P_max ≤ r2.P_max :=
  claim_C8_pmax_monotone 4 3 298 500 1000
    (by norm_num) (by norm_num) (by norm_num) (by norm_num) (by norm_num)

end PVWeb
